import Mathlib

/-!
Verification of the Correlator GPU pipeline against its specification.

The definitions below are a shallow embedding of the pipeline code:

* device-side callback fragments embedded as string literals in
  `src/fft_handler.cpp` (pre/post callbacks of the three clFFT plans),
* the host-side byte-offset arithmetic of `FFTHandler::step3_correlation`,
  `FFTHandler::create_post_callback_userdata` and
  `FFTHandler::getCorrelationPeaksData`,
* the `CorrelationPipeline` step state machine
  (`include/correlator/CorrelationPipeline.hpp`),
* `Configuration::validate` (`include/correlator/Configuration.hpp`),
* `FFTHandler::cleanup` (`src/fft_handler.cpp`),
* the CPU reference converter `convert_reference_signals_cpu`.

Machine `float` values are modelled by exact rationals: the claims treated
here are about which algebraic formula is computed, which indices are read
and written, and which control path is taken -- not about rounding.
-/

namespace Correlator

/-- A device `float2` complex value, modelled with exact rational components. -/
structure Float2 where
  re : ℚ
  im : ℚ
deriving DecidableEq, Repr

/-- Post-callback of the reference forward plan
(`post_callback_conjugate`, fft_handler.cpp lines 456-461):
`out[outoffset] = (float2)(fftoutput.x, -fftoutput.y)` -- negates the
imaginary part of every output element of the reference FFT. -/
def post_callback_conjugate (fftoutput : Float2) : Float2 :=
  ⟨fftoutput.re, -fftoutput.im⟩

/-- Complex product computed by the correlation inverse plan's pre-callback
(fft_handler.cpp lines 675-678):
`real = ref.x * inp.x + ref.y * inp.y; imag = ref.y * inp.x - ref.x * inp.y`,
i.e. `ref * conj(inp)`. -/
def correlation_multiply (ref inp : Float2) : Float2 :=
  ⟨ref.re * inp.re + ref.im * inp.im, ref.im * inp.re - ref.re * inp.im⟩

/-- The element value actually fed to the inverse transform for a
reference-spectrum element `R` and input-spectrum element `I`: the
reference plan stored `post_callback_conjugate R` in `reference_fft`
(copied verbatim into the correlation userdata by `step3_correlation`),
and the inverse plan's pre-callback multiplies that stored value by
`conj` of the input element. -/
def correlation_fed_value (R I : Float2) : Float2 :=
  correlation_multiply (post_callback_conjugate R) I

/-- Modelled from the spec: the plain complex product
`(a+bi)(c+di) = (ac - bd) + (ad + bc)i` of spec section 4.5. -/
def spec_complex_mul (a b : Float2) : Float2 :=
  ⟨a.re * b.re - a.im * b.im, a.re * b.im + a.im * b.re⟩

/-- Modelled from the spec: the value claim C1 asserts is fed to the inverse
transform, `conj(FFT(reference_shift)) × FFT(input_signal)` with conjugation
applied exactly once. -/
def claimed_fed_value (R I : Float2) : Float2 :=
  spec_complex_mul (post_callback_conjugate R) I

/-- Pre-callback of the reference forward plan (fft_handler.cpp lines
412-424, identical fragment in `create_fft_plan_1d_with_precallback` lines
318-330): reads the raw int32 sample directly at index `inoffset`
(`int val = in[inoffset];`) and returns
`(float2)((float)val * params->scale_factor, 0.0f)`.
The raw reference buffer holds only `N` samples (`initialize` allocates
`N * sizeof(int32_t)`), so an offset past it is an out-of-bounds read,
modelled as `none`. -/
def reference_pre_callback (raw : List ℤ) (scale_factor : ℚ) (inoffset : ℕ) :
    Option Float2 :=
  (raw.get? inoffset).map (fun val => ⟨(val : ℚ) * scale_factor, 0⟩)

/-- CPU realization of the reference conversion
(`convert_reference_signals_cpu`, unnamed/part_010 lines 42-53): output
element `shift * N + i` is read from `input[(i + shift) % N]` and converted
as `(input[(i + shift) % N] * scale_factor, 0)`.  Stated as a function of
the flat output element index `e`, with `shift = e / N` and `i = e % N`. -/
def convert_reference_signals_cpu (input : List ℤ) (N : ℕ) (scale_factor : ℚ)
    (e : ℕ) : Option Float2 :=
  (input.get? ((e % N + e / N) % N)).map (fun val => ⟨(val : ℚ) * scale_factor, 0⟩)

/-- Parameter header of the peak-extraction post-callbacks
(`PostCallbackParams`: num_signals, num_shifts, fft_size, n_kg,
search_range; the padding field carries no data). -/
structure PostCallbackParams where
  num_signals : ℕ
  num_shifts : ℕ
  fft_size : ℕ
  n_kg : ℕ
  search_range : ℕ
deriving DecidableEq, Repr

/-- Guard conditions and write index of the peak-extraction post-callback
baked into the correlation inverse plan (`post_callback`, fft_handler.cpp
lines 760-785): `window_idx = outoffset / fft_size`,
`pos_in_window = outoffset % fft_size`; no write when
`window_idx >= num_signals * num_shifts` or `pos_in_window >= n_kg`;
otherwise the float written lands at payload index
`(signal_idx * num_shifts + shift_idx) * n_kg + pos_in_window` with
`signal_idx = window_idx / num_shifts`, `shift_idx = window_idx % num_shifts`. -/
def peaks_write_index (p : PostCallbackParams) (outoffset : ℕ) : Option ℕ :=
  let window_idx := outoffset / p.fft_size
  let pos_in_window := outoffset % p.fft_size
  if p.num_signals * p.num_shifts ≤ window_idx then none
  else if p.n_kg ≤ pos_in_window then none
  else
    let signal_idx := window_idx / p.num_shifts
    let shift_idx := window_idx % p.num_shifts
    some ((signal_idx * p.num_shifts + shift_idx) * p.n_kg + pos_in_window)

/-- The peak-extraction post-callback baked into the correlation inverse
plan (fft_handler.cpp lines 760-785), acting on the peaks payload viewed as
a flat array of floats.  `mag` abstracts the OpenCL `length(fftoutput)`
(Euclidean norm): the callback only stores its value, never inspects it, so
every claim about the callback's control flow and indexing holds for an
arbitrary magnitude function. -/
def post_callback_find_peaks (mag : Float2 → ℚ) (p : PostCallbackParams)
    (fftoutput : Float2) (outoffset : ℕ) (peaks : ℕ → ℚ) : ℕ → ℚ :=
  match peaks_write_index p outoffset with
  | none => peaks
  | some i => Function.update peaks i (mag fftoutput)

/-- The running-max peak post-callback of the other plan factory
(`post_callback` in `create_fft_plan_1d_with_postcallback`, fft_handler.cpp
lines 537-576; this factory is not the one used to build the correlation
inverse plan): no-op outside `[0, search_range)`; at `pos_in_window == 0`
the slot is initialized to the magnitude and the remaining `n_kg - 1` points
are zero-filled; at `pos_in_window > 0` the stored value is replaced only if
the new magnitude exceeds it. -/
def post_callback_running_max (mag : Float2 → ℚ) (p : PostCallbackParams)
    (fftoutput : Float2) (outoffset : ℕ) (peaks : ℕ → ℚ) : ℕ → ℚ :=
  let window_idx := outoffset / p.fft_size
  let pos_in_window := outoffset % p.fft_size
  if p.num_signals * p.num_shifts ≤ window_idx then peaks
  else if p.search_range ≤ pos_in_window then peaks
  else
    let signal_idx := window_idx / p.num_shifts
    let shift_idx := window_idx % p.num_shifts
    let output_idx := (signal_idx * p.num_shifts + shift_idx) * p.n_kg
    if pos_in_window = 0 then
      fun j =>
        if j = output_idx then mag fftoutput
        else if output_idx < j ∧ j < output_idx + p.n_kg then 0
        else peaks j
    else if peaks output_idx < mag fftoutput then
      Function.update peaks output_idx (mag fftoutput)
    else peaks

/-- Squared Euclidean magnitude `re² + im²`; a concrete computable
instantiation of the abstract magnitude parameter (the square of the OpenCL
`length`, which preserves all the comparisons the callbacks make). -/
def sq_magnitude (v : Float2) : ℚ :=
  v.re * v.re + v.im * v.im

/-- `sizeof(ComplexMultiplyParams)`: four `cl_uint`/`uint` fields
(fft_handler.cpp lines 646-651 device side, 686-691 and 1309-1314 host
side) = 16 bytes. -/
def complexMultiplyParamsBytes : ℕ := 4 * 4

/-- `sizeof(cl_float2)` = `sizeof(float2)` = 8 bytes. -/
def float2Bytes : ℕ := 8

/-- Host-side byte offset of the parameter header in the correlation
userdata buffer: `clEnqueueWriteBuffer(..., pre_callback_userdata, ..., 0,
params_size, &pre_params, ...)` writes it at offset 0 (fft_handler.cpp
lines 718-726). -/
def host_params_offset : ℕ := 0

/-- Host-side destination byte offset of the reference-spectrum copy:
`step3_correlation` copies `reference_fft` with `dst_offset = params_size`
(fft_handler.cpp lines 1321-1331). -/
def host_reference_offset : ℕ := complexMultiplyParamsBytes

/-- Host-side destination byte offset of the input-spectrum copy:
`step3_correlation` copies `input_fft` with
`dst_offset = params_size + reference_size` where
`reference_size = num_shifts * N * sizeof(cl_float2)` (fft_handler.cpp
lines 1316, 1337-1347). -/
def host_input_offset (N num_shifts : ℕ) : ℕ :=
  complexMultiplyParamsBytes + num_shifts * N * float2Bytes

/-- Device-side byte offset at which the complex-multiply pre-callback reads
its parameter header: `params = (ComplexMultiplyParams*)userdata`
(fft_handler.cpp line 654). -/
def device_params_offset : ℕ := 0

/-- Device-side byte offset of the reference spectrum inside the userdata:
`reference_fft = (float2*)((char*)userdata + sizeof(ComplexMultiplyParams))`
(fft_handler.cpp line 655). -/
def device_reference_offset : ℕ := complexMultiplyParamsBytes

/-- Device-side byte offset of the input spectrum inside the userdata:
`input_fft = (float2*)((char*)userdata + sizeof(ComplexMultiplyParams)
+ sizeof(float2) * params->num_shifts * params->fft_size)`
(fft_handler.cpp line 656). -/
def device_input_offset (N num_shifts : ℕ) : ℕ :=
  complexMultiplyParamsBytes + float2Bytes * (num_shifts * N)

/-- Byte size of the device-side `PostCallbackParams` struct: 6 `uint`
fields (5 parameters + `padding[1]`) = 24 bytes; the peaks payload pointer
is `(float*)((char*)userdata + sizeof(PostCallbackParams))`
(fft_handler.cpp lines 751-758, 762). -/
def device_peaks_payload_offset : ℕ := 6 * 4

/-- Host-side byte offset used to download the peaks payload:
`post_params_size = 6 * sizeof(cl_uint)` in `step3_correlation`
(fft_handler.cpp line 1420) and `getCorrelationPeaksData`
(fft_handler.cpp line 1944). -/
def host_peaks_download_offset : ℕ := 6 * 4

/-- Number of floats the host downloads from the peaks payload:
`num_signals * num_shifts * n_kg` (fft_handler.cpp lines 1412, 1421,
1945-1947). -/
def host_peaks_download_count (num_signals num_shifts n_kg : ℕ) : ℕ :=
  num_signals * num_shifts * n_kg

/-- Number of floats allocated after the header in the peak userdata
buffer: `output_size = num_signals * num_shifts * n_kg * sizeof(float)` in
`create_post_callback_userdata` (fft_handler.cpp line 884). -/
def allocated_peak_floats (num_signals num_shifts n_kg : ℕ) : ℕ :=
  num_signals * num_shifts * n_kg

/-- The step-completion flags of `CorrelationPipeline`
(CorrelationPipeline.hpp lines 35-37). -/
structure PipelineState where
  step1_completed : Bool
  step2_completed : Bool
  step3_completed : Bool
deriving DecidableEq, Repr

/-- Outcome of each virtual `IFFTBackend` call a step makes: `true` means
the call returns success.  Snapshot, validator and exporter collaborators
are out of scope (their results are ignored by the pipeline code). -/
structure BackendBehavior where
  step1_process_ok : Bool
  getReferenceFFT_ok : Bool
  step2_process_ok : Bool
  getInputFFT_ok : Bool
  step3_compute_ok : Bool
  getCorrelationPeaks_ok : Bool
deriving DecidableEq, Repr

/-- `CorrelationPipeline::executeStep1` (CorrelationPipeline.hpp lines
87-124).  The result pairs the C++ outcome (thrown exception or returned
`bool` plus the updated completion flags) with the number of backend calls
the step actually made. -/
def executeStep1 (s : PipelineState) (b : BackendBehavior) :
    Except String (Bool × PipelineState) × ℕ :=
  if s.step1_completed then (.ok (true, s), 0)
  else if !b.step1_process_ok then (.ok (false, s), 1)
  else if !b.getReferenceFFT_ok then (.ok (false, s), 2)
  else (.ok (true, { s with step1_completed := true }), 2)

/-- `CorrelationPipeline::executeStep2` (CorrelationPipeline.hpp lines
131-170): throws before touching the backend when step 1 is not completed. -/
def executeStep2 (s : PipelineState) (b : BackendBehavior) :
    Except String (Bool × PipelineState) × ℕ :=
  if !s.step1_completed then (.error "Step 1 must be completed before Step 2", 0)
  else if s.step2_completed then (.ok (true, s), 0)
  else if !b.step2_process_ok then (.ok (false, s), 1)
  else if !b.getInputFFT_ok then (.ok (false, s), 2)
  else (.ok (true, { s with step2_completed := true }), 2)

/-- `CorrelationPipeline::executeStep3` (CorrelationPipeline.hpp lines
178-218): throws before touching the backend when step 1 or step 2 is not
completed. -/
def executeStep3 (s : PipelineState) (b : BackendBehavior) :
    Except String (Bool × PipelineState) × ℕ :=
  if !s.step1_completed || !s.step2_completed then
    (.error "Step 1 and Step 2 must be completed before Step 3", 0)
  else if s.step3_completed then (.ok (true, s), 0)
  else if !b.step3_compute_ok then (.ok (false, s), 1)
  else if !b.getCorrelationPeaks_ok then (.ok (false, s), 2)
  else (.ok (true, { s with step3_completed := true }), 2)

/-- The parts of `FFTContext` that `FFTHandler::cleanup` touches: the two
guard flags, one liveness bit per plan/buffer handle, and a counter of
destroy/release calls issued (to observe double release). -/
structure FFTContext where
  ctx_initialized : Bool
  is_cleaned_up : Bool
  reference_fft_plan : Bool
  input_fft_plan : Bool
  correlation_ifft_plan : Bool
  reference_data : Bool
  reference_fft : Bool
  input_data : Bool
  input_fft : Bool
  correlation_fft : Bool
  correlation_ifft : Bool
  pre_callback_userdata : Bool
  post_callback_userdata : Bool
  release_count : ℕ
deriving DecidableEq, Repr

/-- Number of live (non-null) plan and buffer handles; each one costs
exactly one destroy/release call in `cleanup`. -/
def liveHandleCount (c : FFTContext) : ℕ :=
  c.reference_fft_plan.toNat + c.input_fft_plan.toNat +
    c.correlation_ifft_plan.toNat + c.reference_data.toNat +
    c.reference_fft.toNat + c.input_data.toNat + c.input_fft.toNat +
    c.correlation_fft.toNat + c.correlation_ifft.toNat +
    c.pre_callback_userdata.toNat + c.post_callback_userdata.toNat

/-- `FFTHandler::cleanup` (fft_handler.cpp lines 1511-1672): returns
immediately when not initialized or already cleaned up; otherwise destroys
every non-null plan, releases every non-null buffer (nulling each handle),
clears `initialized` and sets `is_cleaned_up`. -/
def cleanup (c : FFTContext) : FFTContext :=
  if !c.ctx_initialized then c
  else if c.is_cleaned_up then c
  else
    { ctx_initialized := false
      is_cleaned_up := true
      reference_fft_plan := false
      input_fft_plan := false
      correlation_ifft_plan := false
      reference_data := false
      reference_fft := false
      input_data := false
      input_fft := false
      correlation_fft := false
      correlation_ifft := false
      pre_callback_userdata := false
      post_callback_userdata := false
      release_count := c.release_count + liveHandleCount c }

/-- `Configuration` (Configuration.hpp lines 18-44): `fft_size_` is a
`size_t`, the three counts are C `int`, the scale factor a `float`. -/
structure Configuration where
  fft_size : ℕ
  num_shifts : ℤ
  num_signals : ℤ
  num_output_points : ℤ
  scale_factor : ℚ
deriving DecidableEq, Repr

/-- `Configuration::validate` (Configuration.hpp lines 61-67):
`fft_size_ > 0 && num_shifts_ > 0 && num_signals_ > 0 &&
num_output_points_ > 0 && scale_factor_ > 0.0f`. -/
def Configuration.validate (c : Configuration) : Bool :=
  decide (0 < c.fft_size) && decide (0 < c.num_shifts) &&
    decide (0 < c.num_signals) && decide (0 < c.num_output_points) &&
    decide (0 < c.scale_factor)

/-- The `CorrelationPipeline` constructor (CorrelationPipeline.hpp lines
54-70): throws `std::invalid_argument` when `config_->validate()` is false,
otherwise yields a pipeline with all three completion flags cleared. -/
def mkCorrelationPipeline (c : Configuration) : Except String PipelineState :=
  if c.validate then .ok ⟨false, false, false⟩
  else .error "Invalid configuration"

/-- C1: evaluation of the code at the failing input.  The claim asserts that
exactly one conjugation convention is in effect, so the value fed to the
inverse transform is `conj(FFT(reference_shift)) × FFT(input_signal)` with
conjugation applied exactly once.  In the code both conventions are active
at once: the reference plan's post-callback conjugates the stored reference
spectrum, and the inverse plan's multiply conjugates the input again.  At
the spectral elements `R = I = (0, 1)` (pure imaginary) the value actually
fed is `(-1, 0)` while the claimed single-conjugation value is `(1, 0)`. -/
theorem c1_double_conjugation_eval :
    correlation_fed_value ⟨0, 1⟩ ⟨0, 1⟩ = ⟨-1, 0⟩ ∧
    claimed_fed_value ⟨0, 1⟩ ⟨0, 1⟩ = ⟨1, 0⟩ ∧
    correlation_fed_value ⟨0, 1⟩ ⟨0, 1⟩ ≠ claimed_fed_value ⟨0, 1⟩ ⟨0, 1⟩ := by
  refine ⟨?_, ?_, ?_⟩ <;>
    norm_num [correlation_fed_value, claimed_fed_value, correlation_multiply,
      spec_complex_mul, post_callback_conjugate, Float2.mk.injEq]

/-- C2: evaluation of the code at the failing input.  The claim asserts that
the reference forward plan's pre-callback emits the raw sample at
`(pos + shift) mod N` scaled.  The baked pre-callback instead reads
`in[inoffset]` with no cyclic remapping: with raw reference `[1, 2, 3, 4]`
(`N = 4`, `num_shifts = 2`, `scale_factor = 1`) at output element
`e = 5` (`shift = 1`, `pos = 1`) it reads index 5 -- past the end of the
4-sample buffer -- whereas the CPU realization of the same conversion
(`convert_reference_signals_cpu`) reads `raw[(1+1) mod 4] = 3` and emits
`(3, 0)` as the claim states. -/
theorem c2_gpu_precallback_no_cyclic_shift :
    reference_pre_callback [1, 2, 3, 4] 1 5 = none ∧
    convert_reference_signals_cpu [1, 2, 3, 4] 4 1 5 = some ⟨3, 0⟩ := by
  constructor
  · rfl
  · norm_num [convert_reference_signals_cpu, Float2.mk.injEq]

/-- C3 counterexample: the claim (running maximum over the search range,
replacement only on strict increase) is false for the post-callback actually
baked into the correlation inverse plan.  With
`num_signals = num_shifts = 1`, `N = 8`, `n_kg = 2`, `search_range = 4`,
at output offset 1 (`pos = 1 > 0`, inside the search range) with transform
output `(1, 2)` (squared magnitude 5) and every stored slot value 10, the
actual callback overwrites payload index 1 with 5 even though the new
magnitude does not exceed the stored value; the claimed behaviour (the
running-max variant of `create_fft_plan_1d_with_postcallback`, which the
correlation plan does not use) leaves the buffer unchanged. -/
theorem c3_counterexample_verbatim_write :
    post_callback_find_peaks sq_magnitude ⟨1, 1, 8, 2, 4⟩ ⟨1, 2⟩ 1 (fun _ => 10) 1 = 5 ∧
    post_callback_running_max sq_magnitude ⟨1, 1, 8, 2, 4⟩ ⟨1, 2⟩ 1 (fun _ => 10) 1 = 10 ∧
    sq_magnitude ⟨1, 2⟩ < 10 := by
  refine ⟨?_, ?_, ?_⟩
  · norm_num [post_callback_find_peaks, peaks_write_index, sq_magnitude,
      Function.update]
  · norm_num [post_callback_running_max, sq_magnitude]
  · norm_num [sq_magnitude]

/-- C3 as amended: the correlation inverse plan's peak post-callback stores
the first `n_kg` magnitudes of each window verbatim.  For output element `e`
with `window = e / N` and `pos = e % N`: when `window < num_signals·num_shifts`
and `pos < n_kg` the magnitude is written (unconditionally) at payload index
`(signal·num_shifts + shift)·n_kg + pos`; every other element writes
nothing.  There is no running maximum and no zero-fill. -/
theorem c3_amended_first_nkg_verbatim (mag : Float2 → ℚ) (p : PostCallbackParams)
    (out : Float2) (e : ℕ) (peaks : ℕ → ℚ)
    (hw : e / p.fft_size < p.num_signals * p.num_shifts)
    (hp : e % p.fft_size < p.n_kg) :
    (post_callback_find_peaks mag p out e peaks =
      Function.update peaks
        ((e / p.fft_size / p.num_shifts * p.num_shifts + e / p.fft_size % p.num_shifts) *
            p.n_kg + e % p.fft_size) (mag out)) ∧
    ∀ e' : ℕ,
      p.num_signals * p.num_shifts ≤ e' / p.fft_size ∨ p.n_kg ≤ e' % p.fft_size →
      post_callback_find_peaks mag p out e' peaks = peaks := by
  constructor
  · simp only [post_callback_find_peaks, peaks_write_index]
    rw [if_neg (Nat.not_le.mpr hw), if_neg (Nat.not_le.mpr hp)]
  · intro e' h
    simp only [post_callback_find_peaks, peaks_write_index]
    rcases h with h | h
    · rw [if_pos h]
    · by_cases h1 : p.num_signals * p.num_shifts ≤ e' / p.fft_size
      · rw [if_pos h1]
      · rw [if_neg h1, if_pos h]

/-- C3 witness: the amended behaviour at a concrete input
(`num_signals = 2`, `num_shifts = 3`, `N = 8`, `n_kg = 5`,
`search_range = 4`, output element 43 = window 5, pos 3). -/
theorem c3_amended_first_nkg_verbatim_witness :
    (post_callback_find_peaks sq_magnitude ⟨2, 3, 8, 5, 4⟩ ⟨1, 2⟩ 43 (fun _ => 0) =
      Function.update (fun _ => 0)
        ((43 / 8 / 3 * 3 + 43 / 8 % 3) * 5 + 43 % 8) (sq_magnitude ⟨1, 2⟩)) ∧
    ∀ e' : ℕ, 2 * 3 ≤ e' / 8 ∨ 5 ≤ e' % 8 →
      post_callback_find_peaks sq_magnitude ⟨2, 3, 8, 5, 4⟩ ⟨1, 2⟩ e' (fun _ => 0) =
        (fun _ => 0) :=
  c3_amended_first_nkg_verbatim sq_magnitude ⟨2, 3, 8, 5, 4⟩ ⟨1, 2⟩ 43 (fun _ => 0)
    (by decide) (by decide)

/-- C4: the byte offsets at which the host writes the correlation userdata
buffer (`step3_correlation`: header at 0, reference-spectrum copy at
`sizeof(ComplexMultiplyParams)`, input-spectrum copy at
`sizeof(ComplexMultiplyParams) + num_shifts·N·sizeof(cl_float2)`) equal the
offsets at which the complex-multiply pre-callback compiled into the
inverse plan reads the header, the reference spectrum and the input
spectrum, for every configuration. -/
theorem c4_userdata_offsets_match (N num_shifts : ℕ) :
    host_params_offset = device_params_offset ∧
    host_reference_offset = device_reference_offset ∧
    host_input_offset N num_shifts = device_input_offset N num_shifts := by
  refine ⟨rfl, rfl, ?_⟩
  unfold host_input_offset device_input_offset
  ring

/-- C5: invoking step 2 before step 1 has completed, or step 3 before steps
1 and 2 have completed, throws a sequencing error with zero backend calls
made, for every backend behaviour -- it never computes with stale buffers. -/
theorem c5_sequencing_errors (s : PipelineState) (b : BackendBehavior) :
    (s.step1_completed = false →
      executeStep2 s b = (.error "Step 1 must be completed before Step 2", 0)) ∧
    (s.step1_completed = false ∨ s.step2_completed = false →
      executeStep3 s b = (.error "Step 1 and Step 2 must be completed before Step 3", 0)) := by
  constructor
  · intro h
    simp [executeStep2, h]
  · intro h
    rcases h with h | h <;> simp [executeStep3, h]

/-- C5 witness: concrete out-of-order invocations fail with the sequencing
error and no backend call. -/
theorem c5_sequencing_errors_witness :
    executeStep2 ⟨false, false, false⟩ ⟨true, true, true, true, true, true⟩ =
      (.error "Step 1 must be completed before Step 2", 0) ∧
    executeStep3 ⟨true, false, false⟩ ⟨true, true, true, true, true, true⟩ =
      (.error "Step 1 and Step 2 must be completed before Step 3", 0) :=
  ⟨(c5_sequencing_errors ⟨false, false, false⟩ ⟨true, true, true, true, true, true⟩).1 rfl,
   (c5_sequencing_errors ⟨true, false, false⟩ ⟨true, true, true, true, true, true⟩).2 (Or.inr rfl)⟩

/-- C6: re-invoking an already-completed step returns success with zero
backend calls (no re-execution), and `cleanup` is idempotent: a second call
is a no-op, so no plan or buffer is ever released twice. -/
theorem c6_idempotent_reinvocation (s : PipelineState) (b : BackendBehavior)
    (c : FFTContext) :
    (s.step1_completed = true → executeStep1 s b = (.ok (true, s), 0)) ∧
    (s.step1_completed = true → s.step2_completed = true →
      executeStep2 s b = (.ok (true, s), 0)) ∧
    (s.step1_completed = true → s.step2_completed = true →
      s.step3_completed = true → executeStep3 s b = (.ok (true, s), 0)) ∧
    cleanup (cleanup c) = cleanup c := by
  refine ⟨?_, ?_, ?_, ?_⟩
  · intro h1
    simp [executeStep1, h1]
  · intro h1 h2
    simp [executeStep2, h1, h2]
  · intro h1 h2 h3
    simp [executeStep3, h1, h2, h3]
  · by_cases hi : c.ctx_initialized
    · by_cases hc : c.is_cleaned_up
      · simp [cleanup, hi, hc]
      · simp [cleanup, hi, hc]
    · simp [cleanup, hi]

/-- C6 witness: a fully-completed pipeline re-runs every step as a no-op
success, and cleaning up a live context twice equals cleaning it once. -/
theorem c6_idempotent_reinvocation_witness :
    executeStep1 ⟨true, true, true⟩ ⟨true, true, true, true, true, true⟩ =
      (.ok (true, ⟨true, true, true⟩), 0) ∧
    executeStep2 ⟨true, true, true⟩ ⟨true, true, true, true, true, true⟩ =
      (.ok (true, ⟨true, true, true⟩), 0) ∧
    executeStep3 ⟨true, true, true⟩ ⟨true, true, true, true, true, true⟩ =
      (.ok (true, ⟨true, true, true⟩), 0) ∧
    cleanup (cleanup ⟨true, false, true, true, true, true, true, true, true, true,
        true, true, true, 0⟩) =
      cleanup ⟨true, false, true, true, true, true, true, true, true, true,
        true, true, true, 0⟩ :=
  ⟨(c6_idempotent_reinvocation ⟨true, true, true⟩ ⟨true, true, true, true, true, true⟩
      ⟨true, false, true, true, true, true, true, true, true, true, true, true, true, 0⟩).1 rfl,
   (c6_idempotent_reinvocation ⟨true, true, true⟩ ⟨true, true, true, true, true, true⟩
      ⟨true, false, true, true, true, true, true, true, true, true, true, true, true, 0⟩).2.1 rfl rfl,
   (c6_idempotent_reinvocation ⟨true, true, true⟩ ⟨true, true, true, true, true, true⟩
      ⟨true, false, true, true, true, true, true, true, true, true, true, true, true, 0⟩).2.2.1
      rfl rfl rfl,
   (c6_idempotent_reinvocation ⟨true, true, true⟩ ⟨true, true, true, true, true, true⟩
      ⟨true, false, true, true, true, true, true, true, true, true, true, true, true, 0⟩).2.2.2⟩

/-- C7 counterexample: `Configuration::validate` does not check that the
transform size is a power of two.  The configuration `N = 3`,
`num_shifts = num_signals = n_kg = 1`, `scale_factor = 1` violates the
claim's power-of-two bound, yet `validate` accepts it and the
`CorrelationPipeline` constructor succeeds instead of failing. -/
theorem c7_power_of_two_not_validated :
    Configuration.validate ⟨3, 1, 1, 1, 1⟩ = true ∧
    mkCorrelationPipeline ⟨3, 1, 1, 1, 1⟩ = .ok ⟨false, false, false⟩ ∧
    ∀ k : ℕ, 2 ^ k ≠ (3 : ℕ) := by
  refine ⟨by norm_num [Configuration.validate], ?_, ?_⟩
  · norm_num [mkCorrelationPipeline, Configuration.validate]
  · intro k
    rcases k with _ | _ | k
    · decide
    · decide
    · have h1 : 1 ≤ 2 ^ k := Nat.one_le_two_pow
      have h2 : 2 ^ (k + 1 + 1) = 2 ^ k * 4 := by ring
      omega

/-- C7 as amended: every configuration is validated before pipeline
construction against positivity bounds only -- `N ≥ 1`, `num_shifts ≥ 1`,
`num_signals ≥ 1`, `n_kg ≥ 1`, `scale_factor > 0` (the power-of-two
property of `N` is not checked); any configuration violating one of these
bounds fails construction (`validate` returns false and the constructor
throws), and every configuration satisfying them constructs successfully. -/
theorem c7_validate_positivity_only (c : Configuration) :
    (c.validate = true ↔
      0 < c.fft_size ∧ 0 < c.num_shifts ∧ 0 < c.num_signals ∧
        0 < c.num_output_points ∧ 0 < c.scale_factor) ∧
    (c.validate = false → mkCorrelationPipeline c = .error "Invalid configuration") ∧
    (c.validate = true → mkCorrelationPipeline c = .ok ⟨false, false, false⟩) := by
  refine ⟨?_, ?_, ?_⟩
  · simp [Configuration.validate, and_assoc]
  · intro h
    simp [mkCorrelationPipeline, h]
  · intro h
    simp [mkCorrelationPipeline, h]

/-- C7 witness: a zero transform size fails construction; a positive
configuration (with non-power-of-two values allowed) constructs. -/
theorem c7_validate_positivity_only_witness :
    mkCorrelationPipeline ⟨0, 1, 1, 1, 1⟩ = .error "Invalid configuration" ∧
    mkCorrelationPipeline ⟨4, 2, 3, 1, 2⟩ = .ok ⟨false, false, false⟩ :=
  ⟨(c7_validate_positivity_only ⟨0, 1, 1, 1, 1⟩).2.1
      (by norm_num [Configuration.validate]),
   (c7_validate_positivity_only ⟨4, 2, 3, 1, 2⟩).2.2
      (by norm_num [Configuration.validate])⟩

/-- C8: the peaks array is row-major signal-major on both sides.  For every
triple `(signal, shift, point)` in range, the post-callback invocation for
output element `(signal·num_shifts + shift)·N + point` writes the payload
float at flat index `(signal·num_shifts + shift)·n_kg + point`; the host
download starts at the same byte offset at which the device payload starts
(24 bytes, after the 6-uint parameter header) and covers
`num_signals·num_shifts·n_kg` floats, so that flat index is in the
downloaded range. -/
theorem c8_peaks_layout (p : PostCallbackParams) (sig shift point : ℕ)
    (hs : sig < p.num_signals) (hh : shift < p.num_shifts)
    (hk : point < p.n_kg) (hkn : point < p.fft_size) :
    peaks_write_index p ((sig * p.num_shifts + shift) * p.fft_size + point) =
      some ((sig * p.num_shifts + shift) * p.n_kg + point) ∧
    host_peaks_download_offset = device_peaks_payload_offset ∧
    (sig * p.num_shifts + shift) * p.n_kg + point <
      host_peaks_download_count p.num_signals p.num_shifts p.n_kg := by
  have hN : 0 < p.fft_size := Nat.lt_of_le_of_lt (Nat.zero_le _) hkn
  have hH : 0 < p.num_shifts := Nat.lt_of_le_of_lt (Nat.zero_le _) hh
  have hwlt : sig * p.num_shifts + shift < p.num_signals * p.num_shifts := by
    calc sig * p.num_shifts + shift < sig * p.num_shifts + p.num_shifts := by omega
      _ = (sig + 1) * p.num_shifts := by ring
      _ ≤ p.num_signals * p.num_shifts := by
          exact Nat.mul_le_mul_right _ (by omega)
  have hre : (sig * p.num_shifts + shift) * p.fft_size + point =
      p.fft_size * (sig * p.num_shifts + shift) + point := by ring
  have hdiv : ((sig * p.num_shifts + shift) * p.fft_size + point) / p.fft_size =
      sig * p.num_shifts + shift := by
    rw [hre, Nat.mul_add_div hN, Nat.div_eq_of_lt hkn, Nat.add_zero]
  have hmod : ((sig * p.num_shifts + shift) * p.fft_size + point) % p.fft_size =
      point := by
    rw [hre, Nat.mul_add_mod, Nat.mod_eq_of_lt hkn]
  have hre2 : sig * p.num_shifts + shift = p.num_shifts * sig + shift := by ring
  have hdiv2 : (sig * p.num_shifts + shift) / p.num_shifts = sig := by
    rw [hre2, Nat.mul_add_div hH, Nat.div_eq_of_lt hh, Nat.add_zero]
  have hmod2 : (sig * p.num_shifts + shift) % p.num_shifts = shift := by
    rw [hre2, Nat.mul_add_mod, Nat.mod_eq_of_lt hh]
  refine ⟨?_, rfl, ?_⟩
  · simp only [peaks_write_index, hdiv, hmod]
    rw [if_neg (Nat.not_le.mpr hwlt), if_neg (Nat.not_le.mpr hk), hdiv2, hmod2]
  · unfold host_peaks_download_count
    calc (sig * p.num_shifts + shift) * p.n_kg + point <
        (sig * p.num_shifts + shift) * p.n_kg + p.n_kg := by omega
      _ = (sig * p.num_shifts + shift + 1) * p.n_kg := by ring
      _ ≤ p.num_signals * p.num_shifts * p.n_kg := by
          exact Nat.mul_le_mul_right _ (by omega)

/-- C8 witness: the layout equality at the concrete configuration
`num_signals = 2`, `num_shifts = 3`, `N = 8`, `n_kg = 5` for the triple
`(signal, shift, point) = (1, 2, 3)`. -/
theorem c8_peaks_layout_witness :
    peaks_write_index ⟨2, 3, 8, 5, 4⟩ ((1 * 3 + 2) * 8 + 3) =
      some ((1 * 3 + 2) * 5 + 3) ∧
    host_peaks_download_offset = device_peaks_payload_offset ∧
    (1 * 3 + 2) * 5 + 3 < host_peaks_download_count 2 3 5 :=
  c8_peaks_layout ⟨2, 3, 8, 5, 4⟩ 1 2 3 (by decide) (by decide) (by decide) (by decide)

/-- C9: when a backend call of a step fails, the step returns `false` and
leaves all three completion flags exactly as they were -- in particular the
failed step's own flag stays clear, so it is set only after every backend
call of the step has succeeded, and already-completed steps' state stays
intact for a safe cleanup. -/
theorem c9_backend_failure_state_intact (s : PipelineState) (b : BackendBehavior) :
    (s.step1_completed = false →
      b.step1_process_ok = false ∨ b.getReferenceFFT_ok = false →
      (executeStep1 s b).1 = .ok (false, s)) ∧
    (s.step1_completed = true → s.step2_completed = false →
      b.step2_process_ok = false ∨ b.getInputFFT_ok = false →
      (executeStep2 s b).1 = .ok (false, s)) ∧
    (s.step1_completed = true → s.step2_completed = true →
      s.step3_completed = false →
      b.step3_compute_ok = false ∨ b.getCorrelationPeaks_ok = false →
      (executeStep3 s b).1 = .ok (false, s)) := by
  refine ⟨?_, ?_, ?_⟩
  · intro h1 hb
    rcases hb with hb | hb
    · simp [executeStep1, h1, hb]
    · by_cases hp : b.step1_process_ok <;> simp [executeStep1, h1, hb, hp]
  · intro h1 h2 hb
    rcases hb with hb | hb
    · simp [executeStep2, h1, h2, hb]
    · by_cases hp : b.step2_process_ok <;> simp [executeStep2, h1, h2, hb, hp]
  · intro h1 h2 h3 hb
    rcases hb with hb | hb
    · simp [executeStep3, h1, h2, h3, hb]
    · by_cases hp : b.step3_compute_ok <;> simp [executeStep3, h1, h2, h3, hb, hp]

/-- C9 witness: with every backend call failing, each step (invoked in its
legal order) returns `false` and leaves the completion flags unchanged. -/
theorem c9_backend_failure_state_intact_witness :
    (executeStep1 ⟨false, false, false⟩ ⟨false, false, false, false, false, false⟩).1 =
      .ok (false, ⟨false, false, false⟩) ∧
    (executeStep2 ⟨true, false, false⟩ ⟨false, false, false, false, false, false⟩).1 =
      .ok (false, ⟨true, false, false⟩) ∧
    (executeStep3 ⟨true, true, false⟩ ⟨false, false, false, false, false, false⟩).1 =
      .ok (false, ⟨true, true, false⟩) :=
  ⟨(c9_backend_failure_state_intact ⟨false, false, false⟩
      ⟨false, false, false, false, false, false⟩).1 rfl (Or.inl rfl),
   (c9_backend_failure_state_intact ⟨true, false, false⟩
      ⟨false, false, false, false, false, false⟩).2.1 rfl rfl (Or.inl rfl),
   (c9_backend_failure_state_intact ⟨true, true, false⟩
      ⟨false, false, false, false, false, false⟩).2.2 rfl rfl rfl (Or.inl rfl)⟩

/-- C10: every write of the correlation plan's peak-extraction post-callback
lands inside the allocated peaks payload.  For every output offset `e` the
callback either writes nothing -- exactly when `e / N ≥
num_signals·num_shifts` or `e mod N ≥ n_kg` -- or it writes one float at a
payload index strictly less than `num_signals·num_shifts·n_kg`, the number
of floats allocated after the header by `create_post_callback_userdata`;
no invocation writes past the buffer or into the header. -/
theorem c10_peak_writes_in_bounds (p : PostCallbackParams) (e : ℕ)
    (hN : 0 < p.fft_size) :
    (peaks_write_index p e = none ↔
      p.num_signals * p.num_shifts ≤ e / p.fft_size ∨ p.n_kg ≤ e % p.fft_size) ∧
    ∀ i : ℕ, peaks_write_index p e = some i →
      i < allocated_peak_floats p.num_signals p.num_shifts p.n_kg := by
  have hN' : 0 < p.fft_size := hN
  constructor
  · simp only [peaks_write_index]
    by_cases h1 : p.num_signals * p.num_shifts ≤ e / p.fft_size
    · simp [h1]
    · by_cases h2 : p.n_kg ≤ e % p.fft_size <;> simp [h1, h2]
  · intro i hi
    simp only [peaks_write_index] at hi
    by_cases h1 : p.num_signals * p.num_shifts ≤ e / p.fft_size
    · simp [h1] at hi
    · by_cases h2 : p.n_kg ≤ e % p.fft_size
      · simp [h1, h2] at hi
      · simp [h1, h2] at hi
        have hw : e / p.fft_size < p.num_signals * p.num_shifts := Nat.not_le.mp h1
        have hpos : e % p.fft_size < p.n_kg := Nat.not_le.mp h2
        have hdm : e / p.fft_size / p.num_shifts * p.num_shifts +
            e / p.fft_size % p.num_shifts = e / p.fft_size := by
          rw [Nat.mul_comm]
          exact Nat.div_add_mod _ _
        rw [← hi, hdm]
        unfold allocated_peak_floats
        calc e / p.fft_size * p.n_kg + e % p.fft_size <
            e / p.fft_size * p.n_kg + p.n_kg := by omega
          _ = (e / p.fft_size + 1) * p.n_kg := by ring
          _ ≤ p.num_signals * p.num_shifts * p.n_kg := by
              exact Nat.mul_le_mul_right _ (by omega)

/-- C10 witness: the bound at the concrete configuration `num_signals = 2`,
`num_shifts = 3`, `N = 8`, `n_kg = 5` and output offset 10 (window 1,
pos 2), which writes payload index 7 < 30. -/
theorem c10_peak_writes_in_bounds_witness :
    peaks_write_index ⟨2, 3, 8, 5, 4⟩ 10 = some 7 ∧
    7 < allocated_peak_floats 2 3 5 :=
  ⟨by decide,
   (c10_peak_writes_in_bounds ⟨2, 3, 8, 5, 4⟩ 10 (by decide)).2 7 (by decide)⟩

end Correlator
